import Mathlib

/-!
Shallow embedding of the pdf2epub converter (src/main.py) and proofs about it.

External libraries (PyMuPDF/fitz, pypdf, PIL, ebooklib's writer, the file
system) are modelled as an environment of fallible functions returning
`Except String`; a Python exception is an `Except.error`.  Each source
function of src/main.py is translated into a Lean function over that
environment; `logger` calls are modelled as lists of log-line strings
returned alongside the value.
-/

namespace Pdf2Epub

/-! ### Python string helpers (truthiness, strip, splitlines, os.path) -/

/-- Truthiness of an optional Python string: `None` and `""` are falsy. -/
def strTruthy : Option String → Bool
  | none => false
  | some s => !s.isEmpty

/-- Python whitespace characters as used by `str.strip()`. -/
def isPySpace (c : Char) : Bool :=
  c.val = 0x20 || (0x9 ≤ c.val && c.val ≤ 0xd) || (0x1c ≤ c.val && c.val ≤ 0x1f) ||
  c.val = 0x85 || c.val = 0xa0 || c.val = 0x1680 ||
  (0x2000 ≤ c.val && c.val ≤ 0x200a) || c.val = 0x2028 || c.val = 0x2029 ||
  c.val = 0x202f || c.val = 0x205f || c.val = 0x3000

/-- `not s.strip()` in Python: the string is empty or all-whitespace. -/
def isBlank (s : String) : Bool := s.data.all isPySpace

/-- Line-break characters recognised by Python `str.splitlines`. -/
def isLineBreakChar (c : Char) : Bool :=
  c.val = 0xa || c.val = 0xd || c.val = 0xb || c.val = 0xc ||
  (0x1c ≤ c.val && c.val ≤ 0x1e) || c.val = 0x85 || c.val = 0x2028 || c.val = 0x2029

/-- Worker for `pySplitlines`: `acc` holds the current line, reversed. -/
def splitlinesList : List Char → List Char → List String
  | [], acc => if acc.isEmpty then [] else [String.mk acc.reverse]
  | '\r' :: '\n' :: rest, acc => String.mk acc.reverse :: splitlinesList rest []
  | '\r' :: rest, acc => String.mk acc.reverse :: splitlinesList rest []
  | c :: rest, acc =>
    if isLineBreakChar c then String.mk acc.reverse :: splitlinesList rest []
    else splitlinesList rest (c :: acc)

/-- Python `str.splitlines()`: split on line boundaries, `\r\n` counting as one,
no trailing empty line for a trailing break. -/
def pySplitlines (s : String) : List String := splitlinesList s.data []

/-- Split a character list at the first occurrence of `c` (excluded). -/
def splitOnFirst (c : Char) : List Char → Option (List Char × List Char)
  | [] => none
  | x :: xs =>
    if x = c then some ([], xs)
    else
      match splitOnFirst c xs with
      | none => none
      | some (a, b) => some (x :: a, b)

/-- Split a character list at the last occurrence of `c` (excluded). -/
def splitOnLast (c : Char) (l : List Char) : Option (List Char × List Char) :=
  match splitOnFirst c l.reverse with
  | none => none
  | some (a, b) => some (b.reverse, a.reverse)

/-- Split a path into (directory part including the slash, basename part). -/
def splitLastSlash (cs : List Char) : List Char × List Char :=
  match splitOnLast '/' cs with
  | none => ([], cs)
  | some (d, b) => (d ++ ['/'], b)

/-- `os.path.basename`: everything after the last slash. -/
def basename (p : String) : String := String.mk (splitLastSlash p.data).2

/-- Split a basename into (root, extension): the extension starts at the last
dot that is not one of the leading dots, mirroring `os.path.splitext`. -/
def splitextBase (cs : List Char) : List Char × List Char :=
  let leading := cs.takeWhile (fun c => c = '.')
  let rest := cs.dropWhile (fun c => c = '.')
  match splitOnLast '.' rest with
  | none => (cs, [])
  | some (a, b) => (leading ++ a, '.' :: b)

/-- `os.path.splitext`: split a path into root and extension. -/
def splitext (p : String) : String × String :=
  let db := splitLastSlash p.data
  let re := splitextBase db.2
  (String.mk (db.1 ++ re.1), String.mk re.2)

/-! ### Python dicts as insertion-ordered association lists -/

/-- A Python `dict[str, str]`: insertion-ordered association list with
unique keys (maintained by `dictInsert`). -/
abbrev Dict := List (String × String)

/-- `d[k] = v` on a Python dict: overwrite in place or append. -/
def dictInsert (d : Dict) (k v : String) : Dict :=
  if d.any (fun kv => kv.1 = k) then
    d.map (fun kv => if kv.1 = k then (k, v) else kv)
  else d ++ [(k, v)]

/-- `d.get(k)` on a Python dict. -/
def dictGet (d : Dict) (k : String) : Option String :=
  (d.find? (fun kv => kv.1 = k)).map (fun kv => kv.2)

/-! ### Data model of the assembled EPUB (the ebooklib calls we make) -/

/-- An item added to the book via `add_item`. -/
inductive EpubItem where
  | html (title file_name lang : String) (paragraphs : List String)
  | ncx
  | nav
  | css (uid file_name media_type : String) (content : String)
deriving DecidableEq, Repr

/-- An entry of `book.spine`: the string `"nav"` or a content item. -/
inductive SpineEntry where
  | nav
  | itemref (file_name : String)
deriving DecidableEq, Repr

/-- An `epub.Link` table-of-contents entry. -/
structure TocLink where
  href : String
  title : String
  uid : String
deriving DecidableEq, Repr

/-- The in-memory EPUB book: the state built up by the ebooklib calls made
in `create_epub_from_text`. -/
structure EpubBook where
  identifier : String
  title : String
  language : String
  authors : List String
  dc_metadata : List (String × String)
  items : List EpubItem
  toc : List TocLink
  cover : Option (String × List Nat)
  spine : List SpineEntry
deriving DecidableEq, Repr

/-- Is this item the HTML chapter? -/
def isHtmlItem : EpubItem → Bool
  | EpubItem.html _ _ _ _ => true
  | _ => false

/-- Paragraphs of an item (empty for non-chapter items). -/
def itemParagraphs : EpubItem → List String
  | EpubItem.html _ _ _ ps => ps
  | _ => []

/-- All paragraphs of the book's HTML chapter items, in order. -/
def bookParagraphs (b : EpubBook) : List String :=
  List.flatten (List.map itemParagraphs (b.items.filter isHtmlItem))

/-! ### The external world: fitz, PIL, pypdf, file system, epub writer -/

/-- A fitz pixmap: the rasterised page. -/
structure Pixmap where
  alpha : Bool
  width : Nat
  height : Nat
  samples : List Nat

/-- A fitz page; `get_pixmap` may raise. -/
structure FitzPage where
  get_pixmap : Nat → Except String Pixmap

/-- A fitz document; `load_page` may raise (e.g. zero-page file). -/
structure FitzDoc where
  load_page : Nat → Except String FitzPage

/-- A PIL image object produced by `Image.frombytes`. -/
structure PILImage where
  mode : String
  width : Nat
  height : Nat
  data : List Nat

/-- A pypdf `PdfReader`: encryption flag, `decrypt` (may raise) and the
per-page `extract_text()` results (each may raise, or return `None`/a
string). -/
structure PdfReader where
  is_encrypted : Bool
  decrypt : String → Except String Unit
  pages : List (Except String (Option String))

/-- The environment of external library calls; each may raise. -/
structure Env where
  fitz_open : String → Except String FitzDoc
  frombytes : String → Nat → Nat → List Nat → Except String PILImage
  img_save : PILImage → String → String → Except String Unit
  pdf_reader : String → Except String PdfReader
  path_exists : String → Bool
  read_file : String → Except String (List Nat)
  write_epub : String → EpubBook → Except String Unit

/-! ### Log lines (the logger calls of src/main.py, abbreviated) -/

def coverInfoLog (output_path : String) : String :=
  "INFO cover image generated at: " ++ output_path

def coverErrorLog (pdf_path e : String) : String :=
  "ERROR failed to generate cover image for " ++ pdf_path ++ ": " ++ e

def textInfoLog (pdf_path : String) : String :=
  "INFO extracted text from " ++ pdf_path

def textErrorLog (pdf_path e : String) : String :=
  "ERROR failed to extract text from " ++ pdf_path ++ ": " ++ e

def warnPlaceholderLog : String :=
  "WARNING no text content extracted, adding placeholder paragraph"

def customCoverLog (path : String) : String :=
  "INFO using custom cover image: " ++ path

def convertErrorLog (pdf_path e : String) : String :=
  "ERROR failed to convert " ++ pdf_path ++ " to EPUB: " ++ e

/-! ### generate_cover_image (src/main.py lines 21-44) -/

/-- The body of `generate_cover_image`'s `try` block. -/
def coverCore (env : Env) (pdf_path output_path : String) (dpi : Nat) :
    Except String Unit :=
  match env.fitz_open pdf_path with
  | Except.error e => Except.error e
  | Except.ok doc =>
    match doc.load_page 0 with
    | Except.error e => Except.error e
    | Except.ok page =>
      match page.get_pixmap dpi with
      | Except.error e => Except.error e
      | Except.ok pix =>
        let mode := if pix.alpha then "RGBA" else "RGB"
        match env.frombytes mode pix.width pix.height pix.samples with
        | Except.error e => Except.error e
        | Except.ok img => env.img_save img output_path "JPEG"

/-- `generate_cover_image`: the output path on success, `None` on any
error, with the error logged. -/
def generate_cover_image (env : Env) (pdf_path : String)
    (output_path : String := "./data/cover.jpg") (dpi : Nat := 150) :
    Option String × List String :=
  match coverCore env pdf_path output_path dpi with
  | Except.ok _ => (some output_path, [coverInfoLog output_path])
  | Except.error e => (none, [coverErrorLog pdf_path e])

/-! ### extract_pdf_text (src/main.py lines 47-71) -/

/-- The page loop: append `extract_text()` results that are truthy
(non-`None`, non-empty); any page exception propagates. -/
def gatherPages : List (Except String (Option String)) → Except String (List String)
  | [] => Except.ok []
  | p :: rest =>
    match p with
    | Except.error e => Except.error e
    | Except.ok t =>
      match gatherPages rest with
      | Except.error e => Except.error e
      | Except.ok ts =>
        match t with
        | some s => if s.isEmpty then Except.ok ts else Except.ok (s :: ts)
        | none => Except.ok ts

/-- The body of `extract_pdf_text`'s `try` block. -/
def extractCore (env : Env) (pdf_path : String) (password : Option String) :
    Except String String :=
  match env.pdf_reader pdf_path with
  | Except.error e => Except.error e
  | Except.ok reader =>
    match (if reader.is_encrypted && strTruthy password
           then reader.decrypt (password.getD "")
           else Except.ok ()) with
    | Except.error e => Except.error e
    | Except.ok _ =>
      match gatherPages reader.pages with
      | Except.error e => Except.error e
      | Except.ok texts => Except.ok (String.intercalate "\n" texts)

/-- `extract_pdf_text`: the combined text on success, `""` on any error,
with the error logged. -/
def extract_pdf_text (env : Env) (pdf_path : String)
    (password : Option String := none) : String × List String :=
  match extractCore env pdf_path password with
  | Except.ok s => (s, [textInfoLog pdf_path])
  | Except.error e => ("", [textErrorLog pdf_path e])

/-! ### create_epub_from_text (src/main.py lines 74-141) -/

/-- The placeholder paragraph substituted for blank text. -/
def placeholderText : String :=
  "No textual content could be extracted from this PDF."

/-- The fixed stylesheet attached to every book. -/
def styleText : String :=
  "\n    body \x7b\n        font-family: Arial, sans-serif;\n        margin: 10px;\n    \x7d\n    p \x7b\n        text-align: justify;\n        margin-bottom: 1em;\n    \x7d\n    "

/-- Dublin-Core metadata attached by the `if metadata:` loop: an empty or
absent mapping attaches nothing. -/
def dcOf : Option Dict → Dict
  | some m => if m.isEmpty then [] else m
  | none => []

/-- The cover-attachment step of `create_epub_from_text`: read the cover
bytes when a truthy path is given and the file exists (`set_cover` with the
basename), otherwise attach nothing; reading may raise. -/
def coverAttach (env : Env) (cover_image : Option String) :
    Except String (Option (String × List Nat)) :=
  match cover_image with
  | some ci =>
    if !ci.isEmpty && env.path_exists ci then
      match env.read_file ci with
      | Except.error e => Except.error e
      | Except.ok bytes => Except.ok (some (basename ci, bytes))
    else Except.ok none
  | none => Except.ok none

/-- `create_epub_from_text`: build the in-memory book.  The only fallible
step is reading the cover file's bytes. -/
def create_epub_from_text (env : Env) (text_content : String)
    (cover_image : Option String := none) (title : String := "Untitled")
    (author : String := "Unknown") (metadata : Option Dict := none) :
    Except String (EpubBook × List String) :=
  let dc : Dict := dcOf metadata
  let blank := isBlank text_content
  let text2 := if blank then placeholderText else text_content
  let warnLogs : List String := if blank then [warnPlaceholderLog] else []
  let paras := pySplitlines text2
  match coverAttach env cover_image with
  | Except.error e => Except.error e
  | Except.ok cover =>
    Except.ok
      ({ identifier := "id_123456"
         title := title
         language := "en"
         authors := [author]
         dc_metadata := dc
         items := [EpubItem.html "Content" "content.xhtml" "en" paras,
                   EpubItem.ncx, EpubItem.nav,
                   EpubItem.css "style_nav" "style/nav.css" "text/css" styleText]
         toc := [{ href := "content.xhtml", title := "Content", uid := "content" }]
         cover := cover
         spine := [SpineEntry.nav, SpineEntry.itemref "content.xhtml"] }, warnLogs)

/-! ### save_epub (src/main.py lines 144-150) -/

/-- `save_epub`: write the book; propagates any write error. -/
def save_epub (env : Env) (book : EpubBook) (output_path : String) :
    Except String (List String) :=
  match env.write_epub output_path book with
  | Except.error e => Except.error e
  | Except.ok _ =>
    Except.ok ["DEBUG attempting to write EPUB file to: " ++ output_path,
               "INFO EPUB successfully saved: " ++ output_path]

/-! ### convert_pdf_to_epub (src/main.py lines 153-198) -/

/-- Output-path derivation: `if not output_path: base + ".epub"`. -/
def deriveOutputPath (output_path : Option String) (pdf_path : String) : String :=
  if strTruthy output_path then output_path.getD ""
  else (splitext pdf_path).1 ++ ".epub"

/-- Cover choice: a truthy, existing custom cover is used directly,
otherwise the cover generator runs on the input PDF. -/
def chooseCover (env : Env) (custom_cover : Option String) (pdf_path : String) :
    Option String × List String :=
  match custom_cover with
  | some cc =>
    if !cc.isEmpty && env.path_exists cc then (some cc, [customCoverLog cc])
    else generate_cover_image env pdf_path "./data/cover.jpg" 150
  | none => generate_cover_image env pdf_path "./data/cover.jpg" 150

/-- Title derivation: `metadata.get("title", basename) if metadata else basename`. -/
def deriveTitle (metadata : Option Dict) (pdf_path : String) : String :=
  match metadata with
  | some m =>
    if m.isEmpty then basename pdf_path
    else (dictGet m "title").getD (basename pdf_path)
  | none => basename pdf_path

/-- Author derivation: `metadata.get("author", "Unknown") if metadata else "Unknown"`. -/
def deriveAuthor (metadata : Option Dict) : String :=
  match metadata with
  | some m => if m.isEmpty then "Unknown" else (dictGet m "author").getD "Unknown"
  | none => "Unknown"

/-- The body of `convert_pdf_to_epub`'s `try` block: returns the path
written, the book and the accumulated logs. -/
def convertCore (env : Env) (pdf_path : String)
    (output_path password custom_cover : Option String) (metadata : Option Dict) :
    Except String (String × EpubBook × List String) :=
  let out := deriveOutputPath output_path pdf_path
  let coverPair := chooseCover env custom_cover pdf_path
  let textPair := extract_pdf_text env pdf_path password
  let title := deriveTitle metadata pdf_path
  let author := deriveAuthor metadata
  match create_epub_from_text env textPair.1 coverPair.1 title author metadata with
  | Except.error e => Except.error e
  | Except.ok (book, asmLogs) =>
    match save_epub env book out with
    | Except.error e => Except.error e
    | Except.ok writeLogs =>
      Except.ok (out, book, coverPair.2 ++ textPair.2 ++ asmLogs ++ writeLogs)

/-- What a single conversion did: wrote an EPUB, or failed (error logged). -/
inductive ConvertOutcome where
  | written (path : String) (book : EpubBook)
  | failed (msg : String)
deriving DecidableEq, Repr

/-- `convert_pdf_to_epub`: the single top-level `try/except` of the
orchestrator.  Any exception from the pipeline is caught here and logged;
the function always returns. -/
def convert_pdf_to_epub (env : Env) (pdf_path : String)
    (output_path : Option String := none) (password : Option String := none)
    (custom_cover : Option String := none) (metadata : Option Dict := none) :
    ConvertOutcome × List String :=
  match convertCore env pdf_path output_path password custom_cover metadata with
  | Except.ok (out, book, logs) => (ConvertOutcome.written out book, logs)
  | Except.error e => (ConvertOutcome.failed e, [convertErrorLog pdf_path e])

/-! ### main (src/main.py lines 201-265) -/

/-- The parsed command-line arguments. -/
structure Args where
  input_files : List String
  output : Option String
  batch : Bool
  password : Option String
  thumbnail : Option String
  metadata : Option (List String)

/-- `"=" in pair` and `pair.split("=", 1)`. -/
def splitOnFirstEq (s : String) : Option (String × String) :=
  match splitOnFirst '=' s.data with
  | none => none
  | some (a, b) => some (String.mk a, String.mk b)

/-- Build `meta_dict` from the `key=value` pairs: split on the first `=`,
lower-case the key; pairs without `=` are ignored. -/
def parseMetaPairs (pairs : List String) : Dict :=
  pairs.foldl
    (fun d pair =>
      match splitOnFirstEq pair with
      | some kv => dictInsert d kv.1.toLower kv.2
      | none => d)
    []

/-- The metadata mapping `main` builds (empty when `-m` is absent). -/
def argsMeta (args : Args) : Dict :=
  match args.metadata with
  | some ps => parseMetaPairs ps
  | none => []

/-- The dispatch of `main`: batch loop when the batch flag is set and more
than one file is given; explicit output only for exactly one input file
with a truthy output; otherwise a loop with auto-derived outputs. -/
def mainDispatch (env : Env) (args : Args) : List (ConvertOutcome × List String) :=
  let meta_dict := argsMeta args
  if args.batch = true ∧ 1 < args.input_files.length then
    args.input_files.map
      (fun f => convert_pdf_to_epub env f none args.password args.thumbnail (some meta_dict))
  else if args.input_files.length = 1 ∧ strTruthy args.output = true then
    [convert_pdf_to_epub env (args.input_files.headD "") args.output args.password
      args.thumbnail (some meta_dict)]
  else
    args.input_files.map
      (fun f => convert_pdf_to_epub env f none args.password args.thumbnail (some meta_dict))

/-! ### Concrete environments and books used by witnesses -/

/-- A 1x1 RGB pixmap. -/
def pixOk : Pixmap := { alpha := false, width := 1, height := 1, samples := [0, 0, 0] }

/-- A fitz page that always rasterises to `pixOk`. -/
def pageOk : FitzPage := { get_pixmap := fun _ => Except.ok pixOk }

/-- A fitz document whose every page is `pageOk`. -/
def docOk : FitzDoc := { load_page := fun _ => Except.ok pageOk }

/-- A PIL image. -/
def imgOk : PILImage := { mode := "RGB", width := 1, height := 1, data := [0, 0, 0] }

/-- An unencrypted one-page reader whose page yields the text `"hello"`. -/
def readerOk : PdfReader :=
  { is_encrypted := false, decrypt := fun _ => Except.ok ()
    pages := [Except.ok (some "hello")] }

/-- A world in which every external call succeeds (and no path exists). -/
def envOk : Env :=
  { fitz_open := fun _ => Except.ok docOk
    frombytes := fun _ _ _ _ => Except.ok imgOk
    img_save := fun _ _ _ => Except.ok ()
    pdf_reader := fun _ => Except.ok readerOk
    path_exists := fun _ => false
    read_file := fun _ => Except.ok []
    write_epub := fun _ _ => Except.ok () }

/-- A world in which every PDF is corrupted: both PDF readers fail to open
it, while the file system and the EPUB writer work. -/
def envCorrupt : Env :=
  { envOk with
    fitz_open := fun _ => Except.error "cannot open document"
    pdf_reader := fun _ => Except.error "invalid pdf header" }

/-- Like `envOk` except that writing to `bad.epub` raises. -/
def envDiskFull : Env :=
  { envOk with
    write_epub := fun p _ =>
      if p = "bad.epub" then Except.error "disk full" else Except.ok () }

/-- A coverless book with the given title, author, Dublin-Core metadata and
chapter paragraphs, as assembled by `create_epub_from_text`. -/
def simpleBook (title0 author0 : String) (dc : Dict) (paras : List String) : EpubBook :=
  { identifier := "id_123456"
    title := title0
    language := "en"
    authors := [author0]
    dc_metadata := dc
    items := [EpubItem.html "Content" "content.xhtml" "en" paras,
              EpubItem.ncx, EpubItem.nav,
              EpubItem.css "style_nav" "style/nav.css" "text/css" styleText]
    toc := [{ href := "content.xhtml", title := "Content", uid := "content" }]
    cover := none
    spine := [SpineEntry.nav, SpineEntry.itemref "content.xhtml"] }

/-- The book assembled for a PDF with no extractable text, no metadata and
no cover: a single placeholder paragraph. -/
def placeholderBook (title0 : String) : EpubBook :=
  simpleBook title0 "Unknown" [] [placeholderText]

/-- The book assembled in `envOk` for a one-page PDF whose text is `"hello"`. -/
def helloBook (title0 : String) : EpubBook :=
  simpleBook title0 "Unknown" [] ["hello"]

/-- The logs of a fully successful conversion in `envOk`. -/
def okLogs (pdf_path out : String) : List String :=
  [coverInfoLog "./data/cover.jpg", textInfoLog pdf_path,
   "DEBUG attempting to write EPUB file to: " ++ out,
   "INFO EPUB successfully saved: " ++ out]

/-! ### Helper lemmas -/

/-- A successful `create_epub_from_text` call determines every field of the
book except the cover, and the warning log. -/
theorem create_ok_fields (env : Env) (text : String) (cover_image : Option String)
    (title author : String) (metadata : Option Dict) (b : EpubBook) (logs : List String)
    (h : create_epub_from_text env text cover_image title author metadata =
      Except.ok (b, logs)) :
    b.title = title ∧ b.authors = [author] ∧ b.dc_metadata = dcOf metadata ∧
    b.items = [EpubItem.html "Content" "content.xhtml" "en"
                 (pySplitlines (if isBlank text then placeholderText else text)),
               EpubItem.ncx, EpubItem.nav,
               EpubItem.css "style_nav" "style/nav.css" "text/css" styleText] ∧
    b.spine = [SpineEntry.nav, SpineEntry.itemref "content.xhtml"] ∧
    logs = (if isBlank text then [warnPlaceholderLog] else []) := by
  simp only [create_epub_from_text] at h
  split at h
  · exact Except.noConfusion h
  · simp only [Except.ok.injEq, Prod.mk.injEq] at h
    obtain ⟨hb, hl⟩ := h
    subst hb; subst hl
    exact ⟨rfl, rfl, rfl, rfl, rfl, rfl⟩

/-- A successful `convertCore` run writes to the derived output path and the
book is the one the assembler produced. -/
theorem convertCore_ok (env : Env) (pdf_path : String)
    (op pw cc : Option String) (md : Option Dict)
    (out : String) (b : EpubBook) (lg : List String)
    (h : convertCore env pdf_path op pw cc md = Except.ok (out, b, lg)) :
    out = deriveOutputPath op pdf_path ∧
    ∃ asmLogs, create_epub_from_text env (extract_pdf_text env pdf_path pw).1
        (chooseCover env cc pdf_path).1 (deriveTitle md pdf_path) (deriveAuthor md) md =
      Except.ok (b, asmLogs) := by
  simp only [convertCore] at h
  split at h
  · exact Except.noConfusion h
  · next book asmLogs hcr =>
    split at h
    · exact Except.noConfusion h
    · next writeLogs hw =>
      simp only [Except.ok.injEq, Prod.mk.injEq] at h
      obtain ⟨ho, hb, -⟩ := h
      subst hb
      exact ⟨ho.symm, asmLogs, hcr⟩

/-- Gathering pages that all succeed keeps exactly the truthy texts, in order. -/
theorem gatherPages_map_ok (ts : List (Option String)) :
    gatherPages (ts.map Except.ok) =
      Except.ok ((ts.filterMap id).filter (fun s => !s.isEmpty)) := by
  induction ts with
  | nil => rfl
  | cons t rest ih =>
    cases t with
    | none => simp [gatherPages, ih, List.filterMap_cons]
    | some s =>
      by_cases hs : s.isEmpty <;>
        simp [gatherPages, ih, List.filterMap_cons, List.filter_cons, hs]

/-- The placeholder sentence is a single line. -/
theorem pySplitlines_placeholder : pySplitlines placeholderText = [placeholderText] := by
  decide

/-! ### Claim theorems -/

/-- C4 (counterexample): the claim's universal "for every text content, one
paragraph per line of the text" fails on the whitespace-only text `" "`: the
assembler emits the single placeholder paragraph, not the one-line split
`[" "]`. -/
theorem blank_text_not_split_per_line :
    (match create_epub_from_text envOk " " none "Untitled" "Unknown" none with
     | Except.ok r => bookParagraphs r.1
     | Except.error _ => []) = [placeholderText] ∧
    pySplitlines " " = [" "] ∧ ([placeholderText] : List String) ≠ [" "] := by
  exact ⟨by decide, by decide, by decide⟩

/-- C4 (amended): for every text content that is not blank, the chapter's
paragraphs are exactly the Python splitlines of the text — one paragraph
per line, in line order, blank lines becoming empty paragraphs. -/
theorem paragraphs_are_splitlines_of_nonblank_text (env : Env) (text : String)
    (cover : Option String) (title author : String) (meta : Option Dict)
    (b : EpubBook) (logs : List String)
    (hb : isBlank text = false)
    (h : create_epub_from_text env text cover title author meta = Except.ok (b, logs)) :
    bookParagraphs b = pySplitlines text := by
  obtain ⟨-, -, -, hitems, -, -⟩ :=
    create_ok_fields env text cover title author meta b logs h
  rw [hb] at hitems
  simp only [Bool.false_eq_true, if_false] at hitems
  simp [bookParagraphs, hitems, isHtmlItem, itemParagraphs]

/-- C4 witness: the text of two lines yields exactly the two paragraphs
`"line1"` and `"line2"`, in order. -/
theorem paragraphs_are_splitlines_witness :
    bookParagraphs (simpleBook "Untitled" "Unknown" [] ["line1", "line2"]) =
      pySplitlines "line1\nline2" ∧
    pySplitlines "line1\nline2" = ["line1", "line2"] :=
  ⟨paragraphs_are_splitlines_of_nonblank_text envOk "line1\nline2" none "Untitled"
      "Unknown" none (simpleBook "Untitled" "Unknown" [] ["line1", "line2"]) []
      (by decide) rfl,
   by decide⟩

/-- C5: blank (empty or whitespace-only) text is replaced by the fixed
placeholder sentence, a warning is logged, and the chapter holds exactly one
paragraph: the placeholder — never zero paragraphs. -/
theorem blank_text_yields_placeholder_paragraph (env : Env) (text : String)
    (cover : Option String) (title author : String) (meta : Option Dict)
    (b : EpubBook) (logs : List String)
    (hb : isBlank text = true)
    (h : create_epub_from_text env text cover title author meta = Except.ok (b, logs)) :
    bookParagraphs b = [placeholderText] ∧ (bookParagraphs b).length = 1 ∧
    logs = [warnPlaceholderLog] := by
  obtain ⟨-, -, -, hitems, -, hlogs⟩ :=
    create_ok_fields env text cover title author meta b logs h
  rw [hb] at hitems hlogs
  simp only [if_true] at hitems hlogs
  have hp : bookParagraphs b = [placeholderText] := by
    simp [bookParagraphs, hitems, isHtmlItem, itemParagraphs, pySplitlines_placeholder]
  exact ⟨hp, by rw [hp]; rfl, hlogs⟩

/-- C5 witness: the empty text yields the single placeholder paragraph. -/
theorem blank_text_yields_placeholder_witness :
    bookParagraphs (placeholderBook "Untitled") = [placeholderText] ∧
    (bookParagraphs (placeholderBook "Untitled")).length = 1 ∧
    ([warnPlaceholderLog] : List String) = [warnPlaceholderLog] :=
  blank_text_yields_placeholder_paragraph envOk "" none "Untitled" "Unknown" none
    (placeholderBook "Untitled") [warnPlaceholderLog] (by decide) rfl

/-- C6: the Text Extractor returns the newline-join, in page order, of only
the truthy per-page results; on any exception inside the extraction it
returns the empty string with the error logged, never raising. -/
theorem extract_text_join_nonempty_pages (env env2 : Env) (p p2 : String)
    (pw pw2 : Option String) (r : PdfReader) (ts : List (Option String)) (e : String)
    (hr : env.pdf_reader p = Except.ok r)
    (hp : r.pages = List.map Except.ok ts)
    (hd : (if r.is_encrypted && strTruthy pw then r.decrypt (pw.getD "")
           else Except.ok ()) = Except.ok ())
    (he : extractCore env2 p2 pw2 = Except.error e) :
    extract_pdf_text env p pw =
      (String.intercalate "\n" ((ts.filterMap id).filter (fun s => !s.isEmpty)),
       [textInfoLog p]) ∧
    extract_pdf_text env2 p2 pw2 = ("", [textErrorLog p2 e]) := by
  constructor
  · simp only [extract_pdf_text, extractCore, hr, hd, hp, gatherPages_map_ok]
  · simp only [extract_pdf_text, he]

/-- C6 witness: a one-page PDF whose page text is `"hello"` extracts to
`"hello"`; a corrupt PDF extracts to the empty string with the error logged. -/
theorem extract_text_join_nonempty_pages_witness :
    (extract_pdf_text envOk "x.pdf" none =
      (String.intercalate "\n"
        ((([some "hello"] : List (Option String)).filterMap id).filter
          (fun s => !s.isEmpty)), [textInfoLog "x.pdf"]) ∧
     extract_pdf_text envCorrupt "y.pdf" none =
      ("", [textErrorLog "y.pdf" "invalid pdf header"])) :=
  extract_text_join_nonempty_pages envOk envCorrupt "x.pdf" "y.pdf" none none
    readerOk [some "hello"] "invalid pdf header" rfl rfl rfl rfl

/-- C7: the Cover Extractor either returns the requested output path with a
success log, or the sentinel `none` with the error logged; being a total
function it never raises to its caller. -/
theorem cover_extractor_path_or_none (env : Env) (p out : String) (dpi : Nat) :
    generate_cover_image env p out dpi = (some out, [coverInfoLog out]) ∨
    ∃ e, generate_cover_image env p out dpi = (none, [coverErrorLog p e]) := by
  rcases h : coverCore env p out dpi with e | u
  · exact Or.inr ⟨e, by simp [generate_cover_image, h]⟩
  · exact Or.inl (by simp [generate_cover_image, h])

/-- C9: every book the assembler produces has exactly one HTML chapter and
spine `[nav, chapter]`, with the navigation document first. -/
theorem book_single_chapter_and_spine (env : Env) (text : String)
    (cover : Option String) (title author : String) (meta : Option Dict)
    (b : EpubBook) (logs : List String)
    (h : create_epub_from_text env text cover title author meta = Except.ok (b, logs)) :
    (b.items.filter isHtmlItem).length = 1 ∧
    b.spine = [SpineEntry.nav, SpineEntry.itemref "content.xhtml"] := by
  obtain ⟨-, -, -, hitems, hspine, -⟩ :=
    create_ok_fields env text cover title author meta b logs h
  refine ⟨?_, hspine⟩
  rw [hitems]
  rfl

/-- C9 witness: the book built from the text `"hello"`. -/
theorem book_single_chapter_and_spine_witness :
    ((helloBook "x.pdf").items.filter isHtmlItem).length = 1 ∧
    (helloBook "x.pdf").spine = [SpineEntry.nav, SpineEntry.itemref "content.xhtml"] :=
  book_single_chapter_and_spine envOk "hello" none "x.pdf" "Unknown" none
    (helloBook "x.pdf") [] rfl

/-- C10: an empty metadata mapping behaves exactly like an absent one, for
both the assembler (no Dublin-Core fields attached) and the orchestrator
(filename-derived title, `"Unknown"` author). -/
theorem empty_metadata_behaves_as_none (env : Env) (text : String)
    (cover : Option String) (title author p : String) (op pw cc : Option String) :
    create_epub_from_text env text cover title author (some []) =
      create_epub_from_text env text cover title author none ∧
    deriveTitle (some []) p = basename p ∧
    deriveAuthor (some []) = "Unknown" ∧
    dcOf (some []) = [] ∧
    convert_pdf_to_epub env p op pw cc (some []) =
      convert_pdf_to_epub env p op pw cc none :=
  ⟨rfl, rfl, rfl, rfl, rfl⟩

/-- C8: for every conversion and every metadata mapping, the produced book's
title is the metadata's `title` entry when present and otherwise the input
file's base name, and the author is the metadata's `author` entry when
present and otherwise `"Unknown"`. -/
theorem metadata_overrides_title_author (env : Env) (p : String)
    (op pw cc : Option String) (md : Option Dict) (pth : String) (b : EpubBook)
    (h : (convert_pdf_to_epub env p op pw cc md).1 =
      ConvertOutcome.written pth b) :
    b.title = (dictGet (md.getD []) "title").getD (basename p) ∧
    b.authors = [(dictGet (md.getD []) "author").getD "Unknown"] := by
  unfold convert_pdf_to_epub at h
  rcases hc : convertCore env p op pw cc md with e | obl
  · rw [hc] at h; simp at h
  · obtain ⟨o, bk, lg⟩ := obl
    rw [hc] at h
    simp only [ConvertOutcome.written.injEq] at h
    obtain ⟨-, hbk⟩ := h
    subst hbk
    obtain ⟨-, asmLogs, hcr⟩ := convertCore_ok env p op pw cc md o _ lg hc
    obtain ⟨ht, ha, -, -, -, -⟩ := create_ok_fields env _ _ _ _ _ _ asmLogs hcr
    have htit : deriveTitle md p = (dictGet (md.getD []) "title").getD (basename p) := by
      cases md with
      | none => simp [deriveTitle, dictGet]
      | some m =>
        cases m with
        | nil => simp [deriveTitle, dictGet]
        | cons kv rest => simp [deriveTitle]
    have haut : deriveAuthor md = (dictGet (md.getD []) "author").getD "Unknown" := by
      cases md with
      | none => simp [deriveAuthor, dictGet]
      | some m =>
        cases m with
        | nil => simp [deriveAuthor, dictGet]
        | cons kv rest => simp [deriveAuthor]
    exact ⟨by rw [ht, htit], by rw [ha, haut]⟩

/-- The Moby Dick metadata mapping. -/
def mobyDict : Dict := [("title", "Moby Dick"), ("author", "Melville")]

set_option maxRecDepth 4000 in
/-- C8 witness: converting `a.pdf` with the Moby Dick metadata yields a book
titled "Moby Dick" by "Melville" despite the filename, and converting
`b.pdf` with no metadata entries falls back to the filename-derived title
and the "Unknown" author. -/
theorem metadata_overrides_title_author_witness :
    ((simpleBook "Moby Dick" "Melville" mobyDict ["hello"]).title = "Moby Dick" ∧
     (simpleBook "Moby Dick" "Melville" mobyDict ["hello"]).authors = ["Melville"]) ∧
    ((helloBook "b.pdf").title = "b.pdf" ∧
     (helloBook "b.pdf").authors = ["Unknown"]) :=
  ⟨metadata_overrides_title_author envOk "a.pdf" none none none (some mobyDict)
      "a.epub" (simpleBook "Moby Dick" "Melville" mobyDict ["hello"]) (by decide),
   metadata_overrides_title_author envOk "b.pdf" none none none (some [])
      "b.epub" (helloBook "b.pdf") (by decide)⟩

/-- C1: every exception of the per-file pipeline is caught at the single
top-level handler of `convert_pdf_to_epub`, which logs it and yields a
`failed` outcome for that file only; the batch loop maps the orchestrator
over every input file, so each file's outcome is independent of the others. -/
theorem orchestrator_catches_and_batch_continues
    (env : Env) (args : Args) (i j : Nat) (f g e : String)
    (hb : args.batch = true) (hn : 1 < args.input_files.length)
    (hf : args.input_files[i]? = some f)
    (he : convertCore env f none args.password args.thumbnail
      (some (argsMeta args)) = Except.error e)
    (hg : args.input_files[j]? = some g) :
    (mainDispatch env args).length = args.input_files.length ∧
    (mainDispatch env args)[i]? =
      some (ConvertOutcome.failed e, [convertErrorLog f e]) ∧
    (mainDispatch env args)[j]? =
      some (convert_pdf_to_epub env g none args.password args.thumbnail
        (some (argsMeta args))) := by
  have hcond : args.batch = true ∧ 1 < args.input_files.length := ⟨hb, hn⟩
  simp only [mainDispatch, if_pos hcond]
  refine ⟨by simp, ?_, ?_⟩
  · rw [List.getElem?_map, hf]
    simp only [Option.map_some']
    unfold convert_pdf_to_epub
    rw [he]
  · rw [List.getElem?_map, hg]
    rfl

/-- Arguments of a batch run over one bad and one good file. -/
def argsTwoFiles : Args :=
  { input_files := ["bad.pdf", "good.pdf"], output := none, batch := true,
    password := none, thumbnail := none, metadata := none }

set_option maxRecDepth 4000 in
/-- C1 witness: with a write error on `bad.epub`, the batch of two files
yields a logged failure for the first and a normal conversion for the second. -/
theorem orchestrator_catches_witness :
    ((mainDispatch envDiskFull argsTwoFiles).length =
        argsTwoFiles.input_files.length ∧
     (mainDispatch envDiskFull argsTwoFiles)[0]? =
       some (ConvertOutcome.failed "disk full",
         [convertErrorLog "bad.pdf" "disk full"]) ∧
     (mainDispatch envDiskFull argsTwoFiles)[1]? =
       some (convert_pdf_to_epub envDiskFull "good.pdf" none none none
         (some (argsMeta argsTwoFiles)))) :=
  orchestrator_catches_and_batch_continues envDiskFull argsTwoFiles 0 1
    "bad.pdf" "good.pdf" "disk full" rfl (by decide) rfl rfl rfl

set_option maxRecDepth 4000 in
/-- C2 (counterexample): in a world where every PDF is corrupted (both the
cover renderer and the text extractor fail to open it) but the file system
works, converting `bad.pdf` logs the errors yet still WRITES an EPUB at
`bad.epub` containing the placeholder paragraph — the claim's "no output
EPUB file" is false. -/
theorem corrupted_input_still_produces_epub :
    convert_pdf_to_epub envCorrupt "bad.pdf" none none none (some []) =
      (ConvertOutcome.written "bad.epub" (placeholderBook "bad.pdf"),
       [coverErrorLog "bad.pdf" "cannot open document",
        textErrorLog "bad.pdf" "invalid pdf header", warnPlaceholderLog,
        "DEBUG attempting to write EPUB file to: bad.epub",
        "INFO EPUB successfully saved: bad.epub"]) := by
  decide

/-- C2 (amended): a corrupted input (unreadable by both the cover renderer
and the text extractor) logs the extraction errors and produces the
placeholder EPUB at the derived output path; a valid input converted by the
same orchestrator still produces its own EPUB output. -/
theorem corrupted_input_placeholder_epub (env env2 : Env) (p g e1 e2 pth2 : String)
    (b2 : EpubBook) (lg2 : List String)
    (hc : env.fitz_open p = Except.error e1)
    (ht : env.pdf_reader p = Except.error e2)
    (hw : ∀ q b, env.write_epub q b = Except.ok ())
    (hg : convertCore env2 g none none none (some []) = Except.ok (pth2, b2, lg2)) :
    convert_pdf_to_epub env p none none none (some []) =
      (ConvertOutcome.written ((splitext p).1 ++ ".epub")
        (placeholderBook (basename p)),
       [coverErrorLog p e1, textErrorLog p e2, warnPlaceholderLog,
        "DEBUG attempting to write EPUB file to: " ++ ((splitext p).1 ++ ".epub"),
        "INFO EPUB successfully saved: " ++ ((splitext p).1 ++ ".epub")]) ∧
    convert_pdf_to_epub env2 g none none none (some []) =
      (ConvertOutcome.written pth2 b2, lg2) := by
  constructor
  · simp only [convert_pdf_to_epub, convertCore, chooseCover, generate_cover_image,
      coverCore, extract_pdf_text, extractCore, save_epub, deriveOutputPath,
      deriveTitle, deriveAuthor, create_epub_from_text, coverAttach, dcOf,
      hc, ht, hw, strTruthy, placeholderBook, simpleBook,
      (by decide : isBlank "" = true), pySplitlines_placeholder]
    simp [pySplitlines_placeholder, placeholderBook, simpleBook, dictGet]
  · simp only [convert_pdf_to_epub, hg]

set_option maxRecDepth 4000 in
/-- C2 witness: the corrupted `bad.pdf` yields a placeholder EPUB while the
valid `good.pdf` yields its normal EPUB. -/
theorem corrupted_input_placeholder_epub_witness :
    (convert_pdf_to_epub envCorrupt "bad.pdf" none none none (some []) =
      (ConvertOutcome.written ((splitext "bad.pdf").1 ++ ".epub")
        (placeholderBook (basename "bad.pdf")),
       [coverErrorLog "bad.pdf" "cannot open document",
        textErrorLog "bad.pdf" "invalid pdf header", warnPlaceholderLog,
        "DEBUG attempting to write EPUB file to: " ++
          ((splitext "bad.pdf").1 ++ ".epub"),
        "INFO EPUB successfully saved: " ++ ((splitext "bad.pdf").1 ++ ".epub")]) ∧
     convert_pdf_to_epub envOk "good.pdf" none none none (some []) =
      (ConvertOutcome.written "good.epub" (helloBook "good.pdf"),
       okLogs "good.pdf" "good.epub")) :=
  corrupted_input_placeholder_epub envCorrupt envOk "bad.pdf" "good.pdf"
    "cannot open document" "invalid pdf header" "good.epub" (helloBook "good.pdf")
    (okLogs "good.pdf" "good.epub") rfl rfl (fun _ _ => rfl) rfl

/-- Arguments with the batch flag, one input file and an explicit output. -/
def argsBatchOne : Args :=
  { input_files := ["a.pdf"], output := some "custom.epub", batch := true,
    password := none, thumbnail := none, metadata := none }

set_option maxRecDepth 4000 in
/-- C3 (counterexample): with the batch flag SET but a single input file and
an explicit output, the dispatcher honors the explicit output path — it
writes to `custom.epub`, not the auto-derived `a.epub` — so "when the batch
flag is set the explicit output path is ignored" is false. -/
theorem batch_flag_single_file_honors_output :
    (mainDispatch envOk argsBatchOne).map (fun r => r.1) =
      [ConvertOutcome.written "custom.epub" (helloBook "a.pdf")] ∧
    deriveOutputPath none "a.pdf" = "a.epub" := by
  exact ⟨by decide, by decide⟩

/-- C3 (amended): the explicit output path is honored exactly when a single
input file is given with a truthy output (the batch flag is irrelevant then):
the one conversion writes to that path; with more than one input file —
batch flag or not — every conversion gets an auto-derived path. -/
theorem output_honored_iff_single_input (env : Env) (args args2 : Args)
    (f g pth : String) (j : Nat) (b : EpubBook)
    (h1 : args.input_files = [f]) (h2 : strTruthy args.output = true)
    (h3 : 1 < args2.input_files.length) (h4 : args2.input_files[j]? = some g)
    (h5 : (convert_pdf_to_epub env f args.output args.password args.thumbnail
            (some (argsMeta args))).1 = ConvertOutcome.written pth b) :
    mainDispatch env args =
      [convert_pdf_to_epub env f args.output args.password args.thumbnail
        (some (argsMeta args))] ∧
    pth = args.output.getD "" ∧
    (mainDispatch env args2)[j]? =
      some (convert_pdf_to_epub env g none args2.password args2.thumbnail
        (some (argsMeta args2))) := by
  refine ⟨?_, ?_, ?_⟩
  · have hc1 : ¬(args.batch = true ∧ 1 < ([f] : List String).length) := by
      rintro ⟨-, hh⟩; simp at hh
    have hc2 : ([f] : List String).length = 1 ∧ strTruthy args.output = true :=
      ⟨rfl, h2⟩
    simp only [mainDispatch, h1, if_neg hc1, if_pos hc2]
    rfl
  · unfold convert_pdf_to_epub at h5
    rcases hc : convertCore env f args.output args.password args.thumbnail
        (some (argsMeta args)) with e | obl
    · rw [hc] at h5; simp at h5
    · obtain ⟨o, bk, lg⟩ := obl
      rw [hc] at h5
      simp only [ConvertOutcome.written.injEq] at h5
      obtain ⟨ho, -⟩ := h5
      obtain ⟨ho2, -⟩ := convertCore_ok env f args.output args.password
        args.thumbnail (some (argsMeta args)) o bk lg hc
      rw [← ho, ho2]
      simp [deriveOutputPath, h2]
  · by_cases hb2 : args2.batch = true ∧ 1 < args2.input_files.length
    · simp only [mainDispatch, if_pos hb2]
      rw [List.getElem?_map, h4]
      rfl
    · have hlen1 : ¬(args2.input_files.length = 1 ∧ strTruthy args2.output = true) := by
        rintro ⟨hl, -⟩; omega
      simp only [mainDispatch, if_neg hb2, if_neg hlen1]
      rw [List.getElem?_map, h4]
      rfl

/-- Arguments with one input file, no batch flag and an explicit output. -/
def argsSingle : Args :=
  { input_files := ["a.pdf"], output := some "custom.epub", batch := false,
    password := none, thumbnail := none, metadata := none }

/-- Arguments with two input files, no batch flag and an explicit output. -/
def argsMulti : Args :=
  { input_files := ["a.pdf", "b.pdf"], output := some "custom.epub", batch := false,
    password := none, thumbnail := none, metadata := none }

set_option maxRecDepth 4000 in
/-- C3 witness: the single-file run writes to the explicit `custom.epub`;
in the two-file run every conversion gets an auto-derived output path. -/
theorem output_honored_iff_single_input_witness :
    (mainDispatch envOk argsSingle =
      [convert_pdf_to_epub envOk "a.pdf" (some "custom.epub") none none
        (some (argsMeta argsSingle))] ∧
     "custom.epub" = (some "custom.epub" : Option String).getD "" ∧
     (mainDispatch envOk argsMulti)[1]? =
       some (convert_pdf_to_epub envOk "b.pdf" none none none
         (some (argsMeta argsMulti)))) :=
  output_honored_iff_single_input envOk argsSingle argsMulti "a.pdf" "b.pdf"
    "custom.epub" 1 (helloBook "a.pdf") rfl rfl (by decide) rfl rfl

end Pdf2Epub
